import Mathlib

/-!
Shallow embedding of the Emergent Synchronization / Ignition subsystem of the
Noesis repository, centred on:

* `consciousness/esgt/kuramoto.py` (`KuramotoOscillator`, `KuramotoNetwork`),
* `consciousness/esgt/trigger_validation.py` (`TriggerValidationMixin`),
* `consciousness/esgt/phase_operations.py` (`PhaseOperationsMixin`),
* the clock synchronizer of `consciousness/tig/sync.py` (absent from the
  source tree; modelled from the specification, see the marked definitions).

Python floats are embedded as rationals (`ℚ`); the transcendental primitives
(`sin`, `cos`, `sqrt`, `atan2`) and the constant `2π` are abstracted into a
`MathEnv` parameter, since no claim depends on their analytic values.  The one
genuinely analytic claim (the order parameter lies in `[0,1]`) is settled over
`ℝ`/`ℂ` against the exact formula the code computes.  Randomness
(`np.random.uniform`, `np.random.normal`) is passed in as explicit arguments,
and Python dictionaries become insertion-ordered association lists.  A Python
statement that can raise becomes a value in `Except String`.
-/

namespace Noesis

/-- Lookup in an association list with a default, modelling the Python call
`dict.get(key, default)`. -/
def lookupD {α : Type} (l : List (String × α)) (k : String) (d : α) : α :=
  match l.find? (fun p => p.1 == k) with
  | some p => p.2
  | none => d

/-- Lookup with a pair key, modelling `coupling_weights.get((i, j), 1.0)`. -/
def lookupD2 {α : Type} (l : List ((String × String) × α)) (k : String × String) (d : α) : α :=
  match l.find? (fun p => p.1.1 == k.1 && p.1.2 == k.2) with
  | some p => p.2
  | none => d

/-- Python float modulo `x % m` (for `m > 0`): `x - m * ⌊x / m⌋`. -/
def pymod (x m : ℚ) : ℚ := x - m * (⌊x / m⌋ : ℤ)

/-- Python `int(x)`: truncation toward zero. -/
def pyInt (x : ℚ) : ℤ := if 0 ≤ x then ⌊x⌋ else ⌈x⌉

/-- The numeric primitives the Python code takes from `numpy`/`math`,
abstracted: no claim under verification depends on their analytic values. -/
structure MathEnv where
  sin : ℚ → ℚ
  cos : ℚ → ℚ
  sqrt : ℚ → ℚ
  atan2 : ℚ → ℚ → ℚ
  twoPi : ℚ

/-- A concrete instantiation of the abstract primitives, used to evaluate the
model on explicit inputs. -/
def envTriv : MathEnv :=
  { sin := fun _ => 0
    cos := fun _ => 0
    sqrt := fun _ => 0
    atan2 := fun _ _ => 0
    twoPi := 710113 / 113000 }

/-- Modelled from the spec: `OscillatorConfig` lives in
`consciousness/esgt/kuramoto_models.py`, which is not in the source tree.
Fields per the spec data model: natural_frequency (Hz), coupling_strength,
phase_noise (std-dev), integration_method ∈ \x7beuler, rk4\x7d. -/
structure OscillatorConfig where
  natural_frequency : ℚ := 40
  coupling_strength : ℚ := 2
  phase_noise : ℚ := 0
  integration_method : String := "euler"
deriving Repr, DecidableEq

/-- Modelled from the spec: the oscillator lifecycle tag of `OscillatorState`
(`kuramoto_models.py`, not in the source tree): \x7bidle, coupling\x7d. -/
inductive OscState where
  | idle
  | coupling
deriving Repr, DecidableEq

/-- Source `KuramotoOscillator` (kuramoto.py): node id, config, phase, natural
frequency, lifecycle tag, and the phase / frequency history buffers.

In Python, `self.config` is a reference to a mutable `OscillatorConfig`
object that may be shared between oscillators (every oscillator registered
without an explicit config holds the same `default_config` object of the
network).  The embedding keeps the dereferenced config value in `config` and
records the identity of the underlying object in `config_id`; a mutation of a
config object must therefore be applied to every holder of that `config_id`
at once (see `halveConfigObject`), which keeps the value and the heap in
step. -/
structure KuramotoOscillator where
  node_id : String
  config : OscillatorConfig
  config_id : ℕ
  phase : ℚ
  frequency : ℚ
  state : OscState
  phase_history : List ℚ
  frequency_history : List ℚ
deriving Repr, DecidableEq

/-- Source `KuramotoOscillator.__init__`: the uniform-random initial phase is
passed in explicitly as `initPhase`, and the identity of the (possibly
shared) config object held by the oscillator as `config_id`. -/
def mkOscillator (node_id : String) (config : OscillatorConfig) (config_id : ℕ)
    (initPhase : ℚ) : KuramotoOscillator :=
  { node_id := node_id
    config := config
    config_id := config_id
    phase := initPhase
    frequency := config.natural_frequency
    state := .idle
    phase_history := [initPhase]
    frequency_history := [config.natural_frequency] }

/-- Source `KuramotoOscillator._compute_phase_velocity`:
`dθᵢ/dt = 2π·ωᵢ + K·(Σⱼ wⱼ·sin(θⱼ − θᵢ)) / N`, with the coupling term present
only when the neighbor dict is non-empty. -/
def computePhaseVelocity (env : MathEnv) (osc : KuramotoOscillator)
    (current_phase : ℚ) (neighbor_phases : List (String × ℚ))
    (coupling_weights : List (String × ℚ)) (N : ℕ) : ℚ :=
  let base := env.twoPi * osc.frequency
  if neighbor_phases.isEmpty then base
  else
    let coupling_sum := neighbor_phases.foldl
      (fun acc p => acc + lookupD coupling_weights p.1 1 * env.sin (p.2 - current_phase)) 0
    base + osc.config.coupling_strength * (coupling_sum / (N : ℚ))

/-- Source `KuramotoOscillator.update`: one integration step (euler or rk4), phase
wrap into `[0, 2π)`, history append, and the 1000-sample trim.  The Gaussian
noise sample and the optional `N` override are explicit arguments. -/
def oscUpdate (env : MathEnv) (osc : KuramotoOscillator)
    (neighbor_phases : List (String × ℚ)) (coupling_weights : List (String × ℚ))
    (dt : ℚ) (Nopt : Option ℕ) (noise : ℚ) : KuramotoOscillator :=
  let osc := { osc with state := .coupling }
  let N : ℕ :=
    match Nopt with
    | some n => n
    | none => if neighbor_phases.isEmpty then 1 else neighbor_phases.length
  let newPhaseRaw : ℚ :=
    if osc.config.integration_method == "rk4" then
      let k1 := dt * computePhaseVelocity env osc osc.phase neighbor_phases coupling_weights N
      let k2 := dt * computePhaseVelocity env osc (osc.phase + k1 / 2) neighbor_phases coupling_weights N
      let k3 := dt * computePhaseVelocity env osc (osc.phase + k2 / 2) neighbor_phases coupling_weights N
      let k4 := dt * computePhaseVelocity env osc (osc.phase + k3) neighbor_phases coupling_weights N
      osc.phase + (k1 + 2 * k2 + 2 * k3 + k4) / 6 + noise * dt
    else
      osc.phase +
        (computePhaseVelocity env osc osc.phase neighbor_phases coupling_weights N + noise) * dt
  let phase := pymod newPhaseRaw env.twoPi
  let currentVelocity :=
    computePhaseVelocity env { osc with phase := phase } phase neighbor_phases coupling_weights N
  let ph := osc.phase_history ++ [phase]
  let fh := osc.frequency_history ++ [currentVelocity / env.twoPi]
  if ph.length > 1000 then
    { osc with phase := phase, phase_history := ph.drop 1, frequency_history := fh.drop 1 }
  else
    { osc with phase := phase, phase_history := ph, frequency_history := fh }

/-- Source `KuramotoOscillator.reset`: new uniform-random phase (passed in), lifecycle
back to idle, and `phase_history` replaced by the one-element list.  The code
does not touch `frequency_history`. -/
def oscReset (osc : KuramotoOscillator) (newPhase : ℚ) : KuramotoOscillator :=
  { osc with phase := newPhase, state := .idle, phase_history := [newPhase] }

/-- Modelled from the spec: `PhaseCoherence` lives in `kuramoto_models.py`,
which is not in the source tree.  Fields per the spec data model:
order_parameter r, mean_phase, phase_variance, coherence_quality, timestamp. -/
structure PhaseCoherence where
  order_parameter : ℚ
  mean_phase : ℚ
  phase_variance : ℚ
  coherence_quality : String
  timestamp : ℚ
deriving Repr, DecidableEq

/-- Modelled from the spec: `SynchronizationDynamics` lives in
`kuramoto_models.py`, which is not in the source tree.  Fields per the spec
data model: time_to_sync (first time target reached, nullable), cumulative
sustained_duration, rolling coherence sample log. -/
structure SynchronizationDynamics where
  time_to_sync : Option ℚ := none
  sustained_duration : ℚ := 0
  coherence_samples : List (ℚ × ℚ) := []
deriving Repr, DecidableEq

/-- Modelled from the spec: `SynchronizationDynamics.add_coherence_sample`
(`kuramoto_models.py`, not in the source tree) appends to the rolling
coherence sample log. -/
def addCoherenceSample (d : SynchronizationDynamics) (r timestamp : ℚ) :
    SynchronizationDynamics :=
  { d with coherence_samples := d.coherence_samples ++ [(r, timestamp)] }

/-- Source `KuramotoNetwork`: default config, insertion-ordered oscillator map,
dynamics, coherence cache and its timestamp.

`default_config` is itself a mutable Python object: every oscillator added
without an explicit config stores a reference to it.  `default_config_id` is
its object identity, and `next_config_id` supplies fresh identities for
configs passed explicitly to `add_oscillator` (each such call of the
repository constructs a fresh config object). -/
structure KuramotoNetwork where
  default_config : OscillatorConfig
  default_config_id : ℕ
  next_config_id : ℕ
  oscillators : List (String × KuramotoOscillator)
  dynamics : SynchronizationDynamics
  coherence_cache : Option PhaseCoherence
  last_coherence_time : ℚ
deriving Repr, DecidableEq

/-- Source `KuramotoNetwork.__init__`. -/
def mkNetwork (config : OscillatorConfig) : KuramotoNetwork :=
  { default_config := config
    default_config_id := 0
    next_config_id := 1
    oscillators := []
    dynamics := {}
    coherence_cache := none
    last_coherence_time := 0 }

/-- Python dict assignment `d[k] = v`: replace in place if the key exists,
append otherwise. -/
def dictAssign {α : Type} (l : List (String × α)) (k : String) (v : α) :
    List (String × α) :=
  if l.any (fun p => p.1 == k) then
    l.map (fun p => if p.1 == k then (k, v) else p)
  else
    l ++ [(k, v)]

/-- Source `KuramotoNetwork.add_oscillator`; the random initial phase is
explicit.  `osc_config = config or self.default_config` stores a *reference*:
an oscillator added without an explicit config holds the very
`default_config` object of the network, sharing it (and its identity
`default_config_id`) with every other default-config oscillator; an explicit
config is a fresh object and receives a fresh identity. -/
def addOscillator (net : KuramotoNetwork) (node_id : String)
    (config : Option OscillatorConfig) (initPhase : ℚ) : KuramotoNetwork :=
  match config with
  | none =>
    { net with
        oscillators :=
          dictAssign net.oscillators node_id
            (mkOscillator node_id net.default_config net.default_config_id initPhase) }
  | some cfg =>
    { net with
        oscillators :=
          dictAssign net.oscillators node_id
            (mkOscillator node_id cfg net.next_config_id initPhase),
        next_config_id := net.next_config_id + 1 }

/-- Source `KuramotoNetwork.remove_oscillator`. -/
def removeOscillator (net : KuramotoNetwork) (node_id : String) : KuramotoNetwork :=
  { net with oscillators := net.oscillators.filter (fun p => p.1 != node_id) }

/-- Source `KuramotoNetwork.reset_all`: every oscillator is reset to an independent
fresh random phase (supplied by `freshPhase`), the dynamics are replaced by a
fresh `SynchronizationDynamics`, and the coherence cache is cleared. -/
def resetAll (net : KuramotoNetwork) (freshPhase : String → ℚ) : KuramotoNetwork :=
  { net with
      oscillators := net.oscillators.map (fun p => (p.1, oscReset p.2 (freshPhase p.1)))
      dynamics := {}
      coherence_cache := none }

/-- The quality band of `KuramotoNetwork._update_coherence`: the if/elif chain
on the order parameter r. -/
def coherenceQualityOf (r : ℚ) : String :=
  if r < 30 / 100 then "unconscious"
  else if r < 70 / 100 then "preconscious"
  else if r < 90 / 100 then "conscious"
  else "deep"

/-- Sample variance `np.var(phases)` (population variance, ddof = 0). -/
def npVar (phases : List ℚ) : ℚ :=
  let n : ℚ := phases.length
  let mean := phases.sum / n
  (phases.map (fun p => (p - mean) ^ 2)).sum / n

/-- The order parameter of `KuramotoNetwork._update_coherence` over the
abstract primitives: `r = |Σⱼ e^{iθⱼ}| / N`, with the complex magnitude
expressed through `cos`/`sin`/`sqrt` of the environment. -/
def orderParamQ (env : MathEnv) (phases : List ℚ) : ℚ :=
  let re := (phases.map env.cos).sum
  let im := (phases.map env.sin).sum
  env.sqrt (re ^ 2 + im ^ 2) / (phases.length : ℚ)

/-- The `PhaseCoherence` record built by `KuramotoNetwork._update_coherence`
from a non-empty phase list. -/
def mkCoherence (env : MathEnv) (phases : List ℚ) (timestamp : ℚ) : PhaseCoherence :=
  let re := (phases.map env.cos).sum
  let im := (phases.map env.sin).sum
  let r := orderParamQ env phases
  { order_parameter := r
    mean_phase := env.atan2 im re
    phase_variance := npVar phases
    coherence_quality := coherenceQualityOf r
    timestamp := timestamp }

/-- Source `KuramotoNetwork._update_coherence`: no-op on an empty network, otherwise
computes the coherence, refreshes the cache and appends a dynamics sample. -/
def updateCoherence (env : MathEnv) (net : KuramotoNetwork) (timestamp : ℚ) :
    KuramotoNetwork :=
  if net.oscillators.isEmpty then net
  else
    let phases := net.oscillators.map (fun p => p.2.phase)
    { net with
        coherence_cache := some (mkCoherence env phases timestamp)
        last_coherence_time := timestamp
        dynamics := addCoherenceSample net.dynamics (orderParamQ env phases) timestamp }

/-- Source `KuramotoNetwork.get_coherence`: lazily recompute when the cache is absent
and the network is non-empty. -/
def getCoherence (env : MathEnv) (net : KuramotoNetwork) (now : ℚ) :
    Option PhaseCoherence × KuramotoNetwork :=
  if net.coherence_cache.isNone && !net.oscillators.isEmpty then
    let net := updateCoherence env net now
    (net.coherence_cache, net)
  else
    (net.coherence_cache, net)

/-- Source `KuramotoNetwork._compute_network_derivatives`: a phase-velocity value per
oscillator, with the neighbor set filtered to phases actually present. -/
def computeNetworkDerivatives (env : MathEnv) (net : KuramotoNetwork)
    (phases : List (String × ℚ)) (topology : List (String × List String))
    (coupling_weights : Option (List ((String × String) × ℚ))) :
    List (String × ℚ) :=
  let N := net.oscillators.length
  net.oscillators.map (fun p =>
    let node_id := p.1
    let neighbors := (lookupD topology node_id []).eraseDups
    let neighbor_phases := neighbors.filterMap (fun n =>
      (phases.find? (fun q => q.1 == n)).map (fun q => (n, q.2)))
    let weights :=
      match coupling_weights with
      | some cw => neighbors.map (fun n => (n, lookupD2 cw (node_id, n) 1))
      | none => neighbors.map (fun n => (n, (1 : ℚ)))
    (node_id, computePhaseVelocity env p.2 (lookupD phases node_id 0) neighbor_phases weights N))

/-- The rk4 branch of `update_network`: four staged derivative evaluations,
then one combined phase update per oscillator, with the per-step noise sample
applied once and the k1 velocities recorded into the frequency history. -/
def rk4StepOscillators (env : MathEnv) (net : KuramotoNetwork)
    (current_phases : List (String × ℚ)) (topology : List (String × List String))
    (coupling_weights : Option (List ((String × String) × ℚ)))
    (dt : ℚ) (noise : String → ℚ) : List (String × KuramotoOscillator) :=
  let vels1 := computeNetworkDerivatives env net current_phases topology coupling_weights
  let k1 := vels1.map (fun p => (p.1, dt * p.2))
  let phases2 := current_phases.map (fun p => (p.1, p.2 + lookupD k1 p.1 0 / 2))
  let vels2 := computeNetworkDerivatives env net phases2 topology coupling_weights
  let k2 := vels2.map (fun p => (p.1, dt * p.2))
  let phases3 := current_phases.map (fun p => (p.1, p.2 + lookupD k2 p.1 0 / 2))
  let vels3 := computeNetworkDerivatives env net phases3 topology coupling_weights
  let k3 := vels3.map (fun p => (p.1, dt * p.2))
  let phases4 := current_phases.map (fun p => (p.1, p.2 + lookupD k3 p.1 0))
  let vels4 := computeNetworkDerivatives env net phases4 topology coupling_weights
  let k4 := vels4.map (fun p => (p.1, dt * p.2))
  net.oscillators.map (fun p =>
    let nz := noise p.1
    let newPhase := pymod
      (lookupD current_phases p.1 0 +
        (lookupD k1 p.1 0 + 2 * lookupD k2 p.1 0 + 2 * lookupD k3 p.1 0 +
          lookupD k4 p.1 0) / 6 + nz * dt)
      env.twoPi
    (p.1, { p.2 with
        phase := newPhase
        phase_history := p.2.phase_history ++ [newPhase]
        frequency_history :=
          p.2.frequency_history ++ [lookupD vels1 p.1 0 / env.twoPi] }))

/-- The single-evaluation branch of `update_network`: each oscillator is
advanced through `KuramotoOscillator.update` with its topology neighborhood
and the network-level `N`. -/
def eulerStepOscillators (env : MathEnv) (current_phases : List (String × ℚ))
    (topology : List (String × List String))
    (coupling_weights : Option (List ((String × String) × ℚ)))
    (dt : ℚ) (noise : String → ℚ) (N : ℕ)
    (oscillators : List (String × KuramotoOscillator)) :
    List (String × KuramotoOscillator) :=
  oscillators.map (fun p =>
    let neighbors := (lookupD topology p.1 []).eraseDups
    let neighbor_phases := neighbors.filterMap (fun n =>
      (current_phases.find? (fun q => q.1 == n)).map (fun q => (n, q.2)))
    let weights :=
      match coupling_weights with
      | some cw => neighbors.map (fun n => (n, lookupD2 cw (p.1, n) 1))
      | none => neighbors.map (fun n => (n, (1 : ℚ)))
    (p.1, oscUpdate env p.2 neighbor_phases weights dt (some N) (noise p.1)))

/-- Source `KuramotoNetwork.update_network`: one simulation step for every
oscillator.  `next(iter(self.oscillators.values()))` raises `StopIteration`
when the network holds no oscillators; that line becomes the `.error` branch.
The per-oscillator Gaussian noise samples are `noise`; `timestamp` is the
`time.time()` value passed to `_update_coherence`. -/
def updateNetwork (env : MathEnv) (net : KuramotoNetwork)
    (topology : List (String × List String))
    (coupling_weights : Option (List ((String × String) × ℚ)))
    (dt : ℚ) (noise : String → ℚ) (timestamp : ℚ) : Except String KuramotoNetwork :=
  match net.oscillators with
  | [] => .error "StopIteration"
  | first :: _ =>
    let current_phases := net.oscillators.map (fun p => (p.1, p.2.phase))
    let N := net.oscillators.length
    let integration_method := first.2.config.integration_method
    let osc1 : List (String × KuramotoOscillator) :=
      if integration_method == "rk4" then
        rk4StepOscillators env net current_phases topology coupling_weights dt noise
      else
        eulerStepOscillators env current_phases topology coupling_weights dt noise N
          net.oscillators
    .ok (updateCoherence env { net with oscillators := osc1 } timestamp)

/-- The step count of `KuramotoNetwork.synchronize`:
`steps = int((duration_ms / 1000.0) / dt)`, truncation toward zero, and
`range(steps)` is empty for a non-positive count. -/
def syncSteps (duration_ms dt : ℚ) : ℕ :=
  (pyInt ((duration_ms / 1000) / dt)).toNat

/-- One iteration of the `synchronize` loop: a network update, then the
target-coherence bookkeeping on `dynamics`, then the every-10-steps yield
(`await asyncio.sleep(0)`), recorded as a trace of the step indices at which
control was handed to the scheduler.  `elapsedA step` is the measured
`time.time() - start_time` at that step. -/
def syncStepBody (env : MathEnv) (topology : List (String × List String))
    (target_coherence dt : ℚ) (noise : ℕ → String → ℚ) (tick elapsedA : ℕ → ℚ)
    (st : KuramotoNetwork × List ℕ) (step : ℕ) :
    Except String (KuramotoNetwork × List ℕ) := do
  let net ← updateNetwork env st.1 topology none dt (noise step) (tick step)
  let net :=
    match net.coherence_cache with
    | some c =>
      if target_coherence ≤ c.order_parameter then
        let d := net.dynamics
        let d :=
          if d.time_to_sync.isNone then { d with time_to_sync := some (elapsedA step) } else d
        { net with dynamics := { d with sustained_duration := d.sustained_duration + dt } }
      else net
    | none => net
  let yields := if step % 10 == 0 then st.2 ++ [step] else st.2
  pure (net, yields)

/-- Source `KuramotoNetwork.synchronize`: `syncSteps` iterations of `syncStepBody`,
threading the network state and the yield trace. -/
def synchronize (env : MathEnv) (net : KuramotoNetwork)
    (topology : List (String × List String)) (duration_ms target_coherence dt : ℚ)
    (noise : ℕ → String → ℚ) (tick elapsedA : ℕ → ℚ) :
    Except String (KuramotoNetwork × List ℕ) :=
  (List.range (syncSteps duration_ms dt)).foldlM
    (syncStepBody env topology target_coherence dt noise tick elapsedA) (net, [])

/-- Modelled from the spec: the per-node fabric state consumed from the TIG
collaborator (`consciousness/tig`, not in the source tree) — an active peer
connection with its remote node id. -/
structure TIGConnection where
  remote_node_id : String
  active : Bool
deriving Repr, DecidableEq

/-- Modelled from the spec: a fabric node as seen by the coordinator — its
lifecycle state string and its connection map (`consciousness/tig`, not in the
source tree). -/
structure TIGNode where
  node_state : String
  connections : List (String × TIGConnection)
deriving Repr, DecidableEq

/-- Source `TriggerValidationMixin._build_topology`: neighbors are the active
connections whose remote end is also participating; node ids missing from the
fabric are skipped. -/
def buildTopology (tigNodes : List (String × TIGNode)) (node_ids : List String) :
    List (String × List String) :=
  node_ids.foldl (fun topo node_id =>
    match tigNodes.find? (fun p => p.1 == node_id) with
    | some p =>
      let neighbors := (p.2.connections.map Prod.snd).filterMap (fun c =>
        if c.active && node_ids.contains c.remote_node_id then some c.remote_node_id else none)
      topo ++ [(node_id, neighbors)]
    | none => topo) []

/-- One iteration of the dissolve halving loop:
`osc.config.coupling_strength *= 0.5` mutates the config *object* of identity
`cid`, i.e. every holder of that object at once — each oscillator whose
`config_id` is `cid`, and the network `default_config` when it is the same
object. -/
def halveConfigObject (net : KuramotoNetwork) (cid : ℕ) : KuramotoNetwork :=
  { net with
      oscillators := net.oscillators.map (fun p =>
        if p.2.config_id == cid then
          (p.1, { p.2 with config := { p.2.config with
              coupling_strength := p.2.config.coupling_strength * (1 / 2) } })
        else p)
      default_config :=
        if net.default_config_id == cid then
          { net.default_config with
              coupling_strength := net.default_config.coupling_strength * (1 / 2) }
        else net.default_config }

/-- Source `PhaseOperationsMixin._dissolve_event`: the loop
`for osc in oscillators.values(): osc.config.coupling_strength *= 0.5` runs
once per oscillator on the (possibly shared) config object of that oscillator —
so a config object shared by k oscillators is halved k times; then the
network is driven for the 50 ms tail (10 steps at dt = 0.005 s) at the
reduced coupling, and every oscillator is reset to an independent fresh
random phase. -/
def dissolveEvent (env : MathEnv) (net : KuramotoNetwork)
    (tigNodes : List (String × TIGNode)) (participating : List String)
    (noise : ℕ → String → ℚ) (tick : ℕ → ℚ) (freshPhase : String → ℚ) :
    Except String KuramotoNetwork := do
  let net0 := (net.oscillators.map (fun p => p.2.config_id)).foldl halveConfigObject net
  let topology := buildTopology tigNodes participating
  let net1 ← (List.range 10).foldlM
    (fun acc step => updateNetwork env acc topology none (1 / 200) (noise step) (tick step)) net0
  pure (resetAll net1 freshPhase)

/-- Modelled from the spec: `SalienceScore` lives in `consciousness/esgt/models.py`,
which is not in the source tree.  Four component scores; the composite is a
weighted sum whose weights the spec leaves unspecified, so `compute_total` is
abstracted into a function parameter where needed. -/
structure SalienceScore where
  novelty : ℚ
  emotional_relevance : ℚ
  goal_relevance : ℚ
  urgency : ℚ
deriving Repr, DecidableEq

/-- Modelled from the spec: `TriggerConditions` (`consciousness/esgt/models.py`,
not in the source tree): min_salience, minimum available nodes, max fabric
latency, capacity floor, refractory_period_ms, burst cap per rolling window,
min_arousal_level. -/
structure TriggerConditions where
  min_salience : ℚ
  min_available_nodes : ℕ
  max_latency_ms : ℚ
  min_cpu_capacity : ℚ
  refractory_period_ms : ℚ
  burst_cap : ℕ
  min_arousal_level : ℚ
deriving Repr, DecidableEq

/-- Modelled from the spec: the salience gate — composite salience at or above
`min_salience`. -/
def checkSalience (tr : TriggerConditions) (total : ℚ) : Bool :=
  tr.min_salience ≤ total

/-- Modelled from the spec: the resource gate — available eligible nodes at or
above the minimum, fabric latency at or below the ceiling, capacity at or
above the floor. -/
def checkResources (tr : TriggerConditions) (tig_latency_ms : ℚ)
    (available_nodes : ℕ) (cpu_capacity : ℚ) : Bool :=
  decide (tr.min_available_nodes ≤ available_nodes) &&
    decide (tig_latency_ms ≤ tr.max_latency_ms) &&
    decide (tr.min_cpu_capacity ≤ cpu_capacity)

/-- Modelled from the spec: the temporal gate — elapsed time since last
ignition at or above the refractory period (`none` models the infinite elapsed
time of a coordinator that never ignited, which always passes), and the
recent-event count within the burst cap. -/
def checkTemporalGating (tr : TriggerConditions) (time_since_last : Option ℚ)
    (recent_count : ℕ) : Bool :=
  (match time_since_last with
   | none => true
   | some t => decide (tr.refractory_period_ms ≤ t * 1000)) &&
    decide (recent_count ≤ tr.burst_cap)

/-- Modelled from the spec: the arousal gate — arousal at or above
`min_arousal_level`. -/
def checkArousal (tr : TriggerConditions) (arousal : ℚ) : Bool :=
  tr.min_arousal_level ≤ arousal

/-- Source `_check_triggers`: the available-node count — fabric nodes whose state is
`active` or `esgt_mode`. -/
def availableNodes (tigNodes : List (String × TIGNode)) : ℕ :=
  (tigNodes.filter (fun p => p.2.node_state == "active" || p.2.node_state == "esgt_mode")).length

/-- Source `_check_triggers`: `time.time() - self.last_esgt_time` when a previous
ignition exists, `float(inf)` (here `none`) otherwise. -/
def timeSinceLast (last_esgt_time now : ℚ) : Option ℚ :=
  if 0 < last_esgt_time then some (now - last_esgt_time) else none

/-- Source `_check_triggers`: events among the last 10 of the history whose start lies
within the rolling 1-second window. -/
def recentCount (eventTimes : List ℚ) (now : ℚ) : ℕ :=
  ((eventTimes.drop (eventTimes.length - 10)).filter (fun t => now - t < 1)).length

/-- Source `TriggerValidationMixin._check_triggers`: the four gates in their fixed
order — salience, resource, temporal, arousal — each failure short-circuiting
into `(false, reason)`.  The CPU capacity (0.60) and the arousal level (0.70)
are the simulated literals of the source; the numeric parts of the reason
strings are elided. -/
def checkTriggers (tr : TriggerConditions) (computeTotal : SalienceScore → ℚ)
    (salience : SalienceScore) (tigNodes : List (String × TIGNode))
    (avg_latency_us : ℚ) (last_esgt_time : ℚ) (eventTimes : List ℚ) (now : ℚ) :
    Bool × String :=
  if !checkSalience tr (computeTotal salience) then
    (false, "Salience too low")
  else if !checkResources tr (avg_latency_us / 1000) (availableNodes tigNodes) (60 / 100) then
    (false, "Insufficient resources")
  else if !checkTemporalGating tr (timeSinceLast last_esgt_time now)
      (recentCount eventTimes now) then
    (false, "Refractory period violation")
  else if !checkArousal tr (70 / 100) then
    (false, "Arousal too low")
  else
    (true, "")

/-- Modelled from the spec: `SyncResult` (`consciousness/tig/sync_models.py`,
not in the source tree): success flag, offset_ns, jitter_ns, quality ∈ [0,1]. -/
structure SyncResult where
  success : Bool
  offset_ns : ℚ
  jitter_ns : ℚ
  quality : ℚ
deriving Repr, DecidableEq

/-- Modelled from the spec: `SyncState` ∈ \x7bunsynchronized, synchronizing,
synchronized\x7d (`consciousness/tig/sync_models.py`, not in the source tree). -/
inductive SyncState where
  | unsynchronized
  | synchronizing
  | synchronized
deriving Repr, DecidableEq

/-- Modelled from the spec: the slave-side state of `PTPSynchronizer`
(`consciousness/tig/sync.py`, not in the source tree): node id, sync state,
last good offset, recent offset estimates, configured target jitter. -/
structure PTPSynchronizer where
  node_id : String
  state : SyncState
  offset_ns : ℚ
  recent_offsets : List ℚ
  target_jitter_ns : ℚ
deriving Repr, DecidableEq

/-- Modelled from the spec: jitter is the variance across recent offset
estimates. -/
def jitterOf (offsets : List ℚ) : ℚ :=
  if offsets.isEmpty then 0 else npVar offsets

/-- Modelled from the spec: `PTPSynchronizer._calculate_quality(jitter_ns,
delay_ns)` — monotonically decreasing in both inputs relative to the
configured target jitter, clamped to [0,1]. -/
def calculateQuality (sync : PTPSynchronizer) (jitter_ns delay_ns : ℚ) : ℚ :=
  max 0 (min 1 (1 / (1 + jitter_ns / sync.target_jitter_ns + delay_ns / 1000000)))

/-- Modelled from the spec: `PTPSynchronizer.sync_to_master(peer_id,
time_source)` (`consciousness/tig/sync.py`, not in the source tree).  One
round-trip delay/offset estimation round; **always** returns a `SyncResult`
and never raises: a fallible time accessor is modelled as an `Except` value
and the component-boundary catch becomes the match on it — a transient
failure yields a low-quality result that preserves the last good offset; an
absent `time_source` falls back to the internally simulated offset
`simOffset` (standalone/testing mode). -/
def syncToMaster (sync : PTPSynchronizer) (peer_id : String)
    (time_source : Option (Except String ℚ)) (localSend localRecv : ℚ)
    (simOffset : ℚ) : SyncResult × PTPSynchronizer :=
  match time_source with
  | none =>
    let offset := simOffset
    let offsets := sync.recent_offsets ++ [offset]
    let jitter := jitterOf offsets
    let q := calculateQuality sync jitter (localRecv - localSend)
    ({ success := true, offset_ns := offset, jitter_ns := jitter, quality := q },
     { sync with state := .synchronized, offset_ns := offset, recent_offsets := offsets })
  | some (.error _) =>
    ({ success := false, offset_ns := sync.offset_ns, jitter_ns := 0, quality := 0 },
     { sync with state := .synchronizing })
  | some (.ok masterTime) =>
    let delay := localRecv - localSend
    let offset := masterTime - (localSend + localRecv) / 2
    let offsets := sync.recent_offsets ++ [offset]
    let jitter := jitterOf offsets
    let q := calculateQuality sync jitter delay
    ({ success := true, offset_ns := offset, jitter_ns := jitter, quality := q },
     { sync with state := .synchronized, offset_ns := offset, recent_offsets := offsets })

/-- The exact order parameter of `KuramotoNetwork._update_coherence` over the
reals: `r = |Σⱼ e^{iθⱼ}| / N`, the magnitude of the mean resultant vector of
the unit phasors. -/
noncomputable def orderParameter (phases : List ℝ) : ℝ :=
  Complex.abs ((phases.map (fun θ => Complex.exp (θ * Complex.I))).sum) / phases.length

/-- Index of the first entry at or above the target in a list of order
parameters — the step at which `synchronize` first records `time_to_sync`. -/
def firstCrossIdx (target : ℚ) : List ℚ → Option ℕ
  | [] => none
  | r :: rest => if target ≤ r then some 0 else (firstCrossIdx target rest).map (fun i => i + 1)

/-- A concrete sequence of network-level update operations: n repetitions of
`update_network` with zero noise samples at timestamp 0. -/
def runNetworkSteps (env : MathEnv) (topology : List (String × List String))
    (dt : ℚ) (net : KuramotoNetwork) : ℕ → Except String KuramotoNetwork
  | 0 => .ok net
  | n + 1 => do
    let net1 ← runNetworkSteps env topology dt net n
    updateNetwork env net1 topology none dt (fun _ => 0) 0

/-- A config selecting the 4th-order Runge-Kutta integrator. -/
def rk4Config : OscillatorConfig := { integration_method := "rk4" }

/-- A one-oscillator network using the rk4 integrator (initial phase 1/2). -/
def rk4Net1 : KuramotoNetwork := addOscillator (mkNetwork rk4Config) "n1" none (1 / 2)

/-- A one-oscillator network using the default euler integrator. -/
def eulerNet1 : KuramotoNetwork := addOscillator (mkNetwork {}) "n1" none (1 / 2)

/-- A two-oscillator network whose oscillators were both registered without an
explicit config, so both hold the same default config object (coupling
strength 2). -/
def sharedNet2 : KuramotoNetwork :=
  addOscillator (addOscillator (mkNetwork {}) "a" none (1 / 2)) "b" none (1 / 2)

/-! ## Theorems -/

lemma phasor_sum_abs_le (phases : List ℝ) :
    Complex.abs ((phases.map (fun θ => Complex.exp (θ * Complex.I))).sum)
      ≤ (phases.length : ℝ) := by
  induction phases with
  | nil => simp
  | cons a t ih =>
    simp only [List.map_cons, List.sum_cons, List.length_cons]
    calc Complex.abs (Complex.exp (a * Complex.I)
            + ((t.map (fun θ => Complex.exp (θ * Complex.I))).sum))
        ≤ Complex.abs (Complex.exp (a * Complex.I))
            + Complex.abs ((t.map (fun θ => Complex.exp (θ * Complex.I))).sum) :=
          Complex.abs.add_le _ _
      _ ≤ 1 + (t.length : ℝ) := by
          have h1 : Complex.abs (Complex.exp ((a : ℂ) * Complex.I)) = 1 :=
            Complex.abs_exp_ofReal_mul_I a
          linarith [ih]
      _ = ((t.length + 1 : ℕ) : ℝ) := by push_cast; ring

/-- C1: the coherence quality computed by `_update_coherence` is the
deterministic band function of the order parameter r, with exact boundaries:
r < 0.30 unconscious, 0.30 ≤ r < 0.70 preconscious, 0.70 ≤ r < 0.90
conscious, r ≥ 0.90 deep; in particular r = 0.29 is unconscious, r = 0.30
preconscious, r = 0.69 preconscious, r = 0.70 conscious, r = 0.89 conscious,
r = 0.90 deep. -/
theorem C1_coherence_quality_bands :
    (∀ r : ℚ,
      (coherenceQualityOf r = "unconscious" ↔ r < 30 / 100)
      ∧ (coherenceQualityOf r = "preconscious" ↔ 30 / 100 ≤ r ∧ r < 70 / 100)
      ∧ (coherenceQualityOf r = "conscious" ↔ 70 / 100 ≤ r ∧ r < 90 / 100)
      ∧ (coherenceQualityOf r = "deep" ↔ 90 / 100 ≤ r))
    ∧ coherenceQualityOf (29 / 100) = "unconscious"
    ∧ coherenceQualityOf (30 / 100) = "preconscious"
    ∧ coherenceQualityOf (69 / 100) = "preconscious"
    ∧ coherenceQualityOf (70 / 100) = "conscious"
    ∧ coherenceQualityOf (89 / 100) = "conscious"
    ∧ coherenceQualityOf (90 / 100) = "deep" := by
  refine ⟨fun r => ?_, by norm_num [coherenceQualityOf], by norm_num [coherenceQualityOf],
    by norm_num [coherenceQualityOf], by norm_num [coherenceQualityOf],
    by norm_num [coherenceQualityOf], by norm_num [coherenceQualityOf]⟩
  unfold coherenceQualityOf
  split_ifs with h1 h2 h3 <;>
    refine ⟨?_, ?_, ?_, ?_⟩ <;> constructor <;> intro h <;> simp_all <;> linarith

/-- C2: for every non-empty list of oscillator phases (N ≥ 1, hence after
every simulation step), the order parameter r = |mean of the unit phasors
e^{iθ}| computed by `_update_coherence` lies in [0, 1]. -/
theorem C2_order_parameter_unit_interval (phases : List ℝ) (h : phases ≠ []) :
    0 ≤ orderParameter phases ∧ orderParameter phases ≤ 1 := by
  have hpos : 0 < (phases.length : ℝ) := by
    exact_mod_cast List.length_pos.mpr h
  constructor
  · exact div_nonneg (AbsoluteValue.nonneg Complex.abs _) hpos.le
  · rw [orderParameter, div_le_one hpos]
    exact phasor_sum_abs_le phases

/-- C2 witness: the single-oscillator network with phase 0. -/
theorem C2_order_parameter_unit_interval_witness :
    0 ≤ orderParameter [0] ∧ orderParameter [0] ≤ 1 :=
  C2_order_parameter_unit_interval [0] (by simp)

/-- C9: `sync_to_master` is a total function into `SyncResult` — it never
raises: with an absent time source it succeeds with the internally simulated
offset; with a transiently failing time source it returns a low-quality
(quality 0, unsuccessful) result and preserves the last good offset; with a
working time source it returns a successful round result. -/
theorem C9_sync_to_master_total :
    ∀ (sync : PTPSynchronizer) (peer : String) (localSend localRecv simOffset : ℚ),
      ((syncToMaster sync peer none localSend localRecv simOffset).1.success = true
        ∧ (syncToMaster sync peer none localSend localRecv simOffset).1.offset_ns = simOffset)
      ∧ (∀ e : String,
          (syncToMaster sync peer (some (.error e)) localSend localRecv simOffset).1.success = false
          ∧ (syncToMaster sync peer (some (.error e)) localSend localRecv simOffset).1.quality = 0
          ∧ (syncToMaster sync peer (some (.error e)) localSend localRecv simOffset).2.offset_ns
              = sync.offset_ns)
      ∧ (∀ m : ℚ,
          (syncToMaster sync peer (some (.ok m)) localSend localRecv simOffset).1.success = true) :=
  fun _ _ _ _ _ => ⟨⟨rfl, rfl⟩, fun _ => ⟨rfl, rfl, rfl⟩, fun _ => rfl⟩

/-- C10: `KuramotoOscillator.reset` replaces `phase_history` by the
one-element list holding the new random phase but leaves `frequency_history`
untouched, and `KuramotoNetwork.reset_all` applies exactly that reset to every
oscillator, so the per-oscillator frequency histories survive a network reset
while every phase history has length 1. -/
theorem C10_reset_keeps_frequency_history :
    (∀ (osc : KuramotoOscillator) (p : ℚ),
      (oscReset osc p).frequency_history = osc.frequency_history
      ∧ (oscReset osc p).phase_history = [p])
    ∧ (∀ (net : KuramotoNetwork) (fresh : String → ℚ),
      (resetAll net fresh).oscillators.map (fun q => q.2.frequency_history)
        = net.oscillators.map (fun q => q.2.frequency_history)
      ∧ (resetAll net fresh).oscillators.map (fun q => q.2.phase_history)
        = net.oscillators.map (fun q => [fresh q.1])) := by
  refine ⟨fun _ _ => ⟨rfl, rfl⟩, fun net fresh => ⟨?_, ?_⟩⟩ <;>
    simp [resetAll, oscReset]

lemma updateCoherence_oscillators (env : MathEnv) (net : KuramotoNetwork) (ts : ℚ) :
    (updateCoherence env net ts).oscillators = net.oscillators := by
  unfold updateCoherence
  split <;> rfl

lemma updateCoherence_ne (env : MathEnv) (net : KuramotoNetwork) (ts : ℚ)
    (h : net.oscillators.isEmpty = false) :
    updateCoherence env net ts =
      { net with
          coherence_cache :=
            some (mkCoherence env (net.oscillators.map (fun p => p.2.phase)) ts)
          last_coherence_time := ts
          dynamics := addCoherenceSample net.dynamics
            (orderParamQ env (net.oscillators.map (fun p => p.2.phase))) ts } := by
  simp [updateCoherence, h]

lemma ite_config (c : Prop) [Decidable c] (a b : KuramotoOscillator) :
    (ite c a b).config = ite c a.config b.config := by
  split <;> rfl

lemma oscUpdate_config (env : MathEnv) (osc : KuramotoOscillator)
    (np : List (String × ℚ)) (cwts : List (String × ℚ)) (dt : ℚ)
    (Nopt : Option ℕ) (nz : ℚ) :
    (oscUpdate env osc np cwts dt Nopt nz).config = osc.config := by
  unfold oscUpdate
  dsimp only
  rw [ite_config]
  exact ite_self _

lemma map_eq_singleton {α β : Type} (f : α → β) (l : List α) (x : β)
    (h : l.map f = [x]) : ∃ a, l = [a] ∧ f a = x := by
  cases l with
  | nil => simp at h
  | cons a t =>
    cases t with
    | nil =>
      simp only [List.map_cons, List.map_nil, List.cons.injEq, and_true] at h
      exact ⟨a, rfl, h⟩
    | cons b u => simp at h

/-- The common shape of both integration branches of `update_network`: the
mutated network maps an id-preserving, config-preserving function over the
oscillators and then recomputes the coherence. -/
lemma updateNetwork_core {β : Type} (env : MathEnv) (ts : ℚ) (net : KuramotoNetwork)
    (osc1 : List (String × KuramotoOscillator))
    (proj : String × KuramotoOscillator → β) (expected : List β)
    (hne : osc1.isEmpty = false)
    (hl : osc1.map proj = expected) :
    ∃ net', (Except.ok (updateCoherence env { net with oscillators := osc1 } ts)
        : Except String KuramotoNetwork) = .ok net'
      ∧ net'.oscillators.map proj = expected
      ∧ net'.dynamics.time_to_sync = net.dynamics.time_to_sync
      ∧ net'.dynamics.sustained_duration = net.dynamics.sustained_duration
      ∧ ∃ r : ℚ, net'.coherence_cache.map (fun c => c.order_parameter) = some r
          ∧ net'.dynamics.coherence_samples
              = net.dynamics.coherence_samples ++ [(r, ts)] := by
  have hne1 : ({ net with oscillators := osc1 } : KuramotoNetwork).oscillators.isEmpty
      = false := hne
  rw [updateCoherence_ne env _ ts hne1]
  exact ⟨_, rfl, hl, rfl, rfl, _, rfl, rfl⟩

lemma rk4StepOscillators_ne (env : MathEnv) (net : KuramotoNetwork)
    (cp : List (String × ℚ)) (topo : List (String × List String))
    (cw : Option (List ((String × String) × ℚ))) (dt : ℚ) (noise : String → ℚ)
    (first : String × KuramotoOscillator) (rest : List (String × KuramotoOscillator))
    (hosc : net.oscillators = first :: rest) :
    (rk4StepOscillators env net cp topo cw dt noise).isEmpty = false := by
  unfold rk4StepOscillators
  rw [hosc]
  rfl

lemma rk4StepOscillators_quads (env : MathEnv) (net : KuramotoNetwork)
    (cp : List (String × ℚ)) (topo : List (String × List String))
    (cw : Option (List ((String × String) × ℚ))) (dt : ℚ) (noise : String → ℚ) :
    (rk4StepOscillators env net cp topo cw dt noise).map
        (fun p => (p.1, p.2.config, p.2.phase_history.length, p.2.frequency_history.length))
      = net.oscillators.map
        (fun p => (p.1, p.2.config, p.2.phase_history.length + 1,
            p.2.frequency_history.length + 1)) := by
  unfold rk4StepOscillators
  simp only [List.map_map]
  refine List.map_congr_left (fun p _ => ?_)
  simp [Function.comp]

lemma eulerStepOscillators_ne (env : MathEnv) (cp : List (String × ℚ))
    (topo : List (String × List String))
    (cw : Option (List ((String × String) × ℚ))) (dt : ℚ) (noise : String → ℚ)
    (N : ℕ) (first : String × KuramotoOscillator)
    (rest : List (String × KuramotoOscillator)) :
    (eulerStepOscillators env cp topo cw dt noise N (first :: rest)).isEmpty = false := rfl

lemma eulerStepOscillators_configs (env : MathEnv) (cp : List (String × ℚ))
    (topo : List (String × List String))
    (cw : Option (List ((String × String) × ℚ))) (dt : ℚ) (noise : String → ℚ)
    (N : ℕ) (l : List (String × KuramotoOscillator)) :
    (eulerStepOscillators env cp topo cw dt noise N l).map (fun p => (p.1, p.2.config))
      = l.map (fun p => (p.1, p.2.config)) := by
  unfold eulerStepOscillators
  simp only [List.map_map]
  refine List.map_congr_left (fun p _ => ?_)
  simp [Function.comp, oscUpdate_config]

/-- One `update_network` step on a non-empty network: it succeeds, preserves
every oscillator id and config, leaves `time_to_sync` and
`sustained_duration` untouched, fills the coherence cache, and appends exactly
one sample `(r, timestamp)` to the rolling log, `r` being the cached order
parameter. -/
lemma updateNetwork_ok (env : MathEnv) (net : KuramotoNetwork)
    (topology : List (String × List String))
    (cw : Option (List ((String × String) × ℚ))) (dt : ℚ) (noise : String → ℚ)
    (ts : ℚ) (first : String × KuramotoOscillator)
    (rest : List (String × KuramotoOscillator))
    (hosc : net.oscillators = first :: rest) :
    ∃ net', updateNetwork env net topology cw dt noise ts = .ok net'
      ∧ net'.oscillators.map (fun p => (p.1, p.2.config))
          = net.oscillators.map (fun p => (p.1, p.2.config))
      ∧ net'.dynamics.time_to_sync = net.dynamics.time_to_sync
      ∧ net'.dynamics.sustained_duration = net.dynamics.sustained_duration
      ∧ ∃ r : ℚ, net'.coherence_cache.map (fun c => c.order_parameter) = some r
          ∧ net'.dynamics.coherence_samples
              = net.dynamics.coherence_samples ++ [(r, ts)] := by
  simp only [updateNetwork, hosc]
  by_cases hm : (first.2.config.integration_method == "rk4") = true
  · rw [if_pos hm]
    refine updateNetwork_core env ts net _ _ _
      (rk4StepOscillators_ne env net _ topology cw dt noise first rest hosc) ?_
    have h4 := rk4StepOscillators_quads env net
      ((first :: rest).map (fun p => (p.1, p.2.phase))) topology cw dt noise
    rw [hosc] at h4
    calc (rk4StepOscillators env net ((first :: rest).map (fun p => (p.1, p.2.phase)))
            topology cw dt noise).map (fun p => (p.1, p.2.config))
        = ((rk4StepOscillators env net ((first :: rest).map (fun p => (p.1, p.2.phase)))
            topology cw dt noise).map
              (fun p => (p.1, p.2.config, p.2.phase_history.length,
                p.2.frequency_history.length))).map (fun q => (q.1, q.2.1)) := by
          simp only [List.map_map]; rfl
      _ = (first :: rest).map (fun p => (p.1, p.2.config)) := by
          rw [h4]
          simp only [List.map_map]
          rfl
  · rw [if_neg hm]
    refine updateNetwork_core env ts net _ _ _
      (eulerStepOscillators_ne env _ topology cw dt noise _ first rest) ?_
    exact eulerStepOscillators_configs env _ topology cw dt noise _ (first :: rest)

lemma ne_nil_of_map_config_eq {l1 l2 : List (String × KuramotoOscillator)}
    (hmap : l1.map (fun p => (p.1, p.2.config)) = l2.map (fun p => (p.1, p.2.config)))
    (h : l2 ≠ []) : l1 ≠ [] := by
  intro hnil
  rw [hnil] at hmap
  exact h (List.map_eq_nil_iff.mp hmap.symm)

lemma exists_cons_of_ne_nil {l : List (String × KuramotoOscillator)} (h : l ≠ []) :
    ∃ first rest, l = first :: rest := by
  cases hh : l with
  | nil => exact absurd hh h
  | cons a t => exact ⟨a, t, rfl⟩

/-- Repeated `update_network` steps on a non-empty network succeed and
preserve every oscillator id and config. -/
lemma foldUpdates_ok (env : MathEnv) (topo : List (String × List String)) (dt : ℚ)
    (noise : ℕ → String → ℚ) (tick : ℕ → ℚ) :
    ∀ (l : List ℕ) (net : KuramotoNetwork), net.oscillators ≠ [] →
    ∃ net', l.foldlM
        (fun acc step => updateNetwork env acc topo none dt (noise step) (tick step)) net
        = .ok net'
      ∧ net'.oscillators.map (fun p => (p.1, p.2.config))
          = net.oscillators.map (fun p => (p.1, p.2.config)) := by
  intro l
  induction l with
  | nil => exact fun net h => ⟨net, rfl, rfl⟩
  | cons s t ih =>
    intro net h
    obtain ⟨first, rest, hosc⟩ := exists_cons_of_ne_nil h
    obtain ⟨net1, heq, hmap, -⟩ :=
      updateNetwork_ok env net topo none dt (noise s) (tick s) first rest hosc
    have h1 : net1.oscillators ≠ [] := ne_nil_of_map_config_eq hmap h
    obtain ⟨net', heq', hmap'⟩ := ih net1 h1
    refine ⟨net', ?_, hmap'.trans hmap⟩
    rw [List.foldlM_cons, heq]
    exact heq'

/-- C7 counterexample input: `update_network` on a network holding no
oscillators hits `next(iter(self.oscillators.values()))`, i.e. raises. -/
theorem C7_empty_network_raises :
    updateNetwork envTriv (mkNetwork {}) [] none (1 / 200) (fun _ => 0) 0
      = .error "StopIteration" := rfl

/-- C7 (amended): on a network holding at least one oscillator,
`update_network` completes without raising for every topology — including
topologies that still name removed oscillators — and the divisor N it threads
into the coupling terms is the active oscillator count, which is positive. -/
theorem C7_update_network_no_crash (env : MathEnv) (net : KuramotoNetwork)
    (topology : List (String × List String))
    (cw : Option (List ((String × String) × ℚ))) (dt : ℚ) (noise : String → ℚ)
    (ts : ℚ) (h : net.oscillators ≠ []) :
    (updateNetwork env net topology cw dt noise ts).toOption.isSome = true
    ∧ 0 < net.oscillators.length := by
  obtain ⟨first, rest, hosc⟩ := exists_cons_of_ne_nil h
  obtain ⟨net', heq, -⟩ := updateNetwork_ok env net topology cw dt noise ts first rest hosc
  exact ⟨by rw [heq]; rfl, by rw [hosc]; simp⟩

/-- Folding the dissolve halving loop over a list of config identities: each
oscillator ends with its coupling strength multiplied by (1/2) once per
occurrence of its own config identity in the list. -/
lemma foldl_halveConfigObject_pairs :
    ∀ (cids : List ℕ) (net : KuramotoNetwork),
    (cids.foldl halveConfigObject net).oscillators.map
        (fun p => (p.1, p.2.config.coupling_strength))
      = net.oscillators.map
        (fun p => (p.1, p.2.config.coupling_strength * (1 / 2) ^ cids.count p.2.config_id)) := by
  intro cids
  induction cids with
  | nil =>
    intro net
    refine (List.map_congr_left (fun p _ => ?_)).symm
    simp
  | cons cid rest ih =>
    intro net
    rw [List.foldl_cons, ih]
    unfold halveConfigObject
    dsimp only
    rw [List.map_map]
    refine List.map_congr_left (fun p _ => ?_)
    by_cases hid : (p.2.config_id == cid) = true
    · have hEq : p.2.config_id = cid := by simpa using hid
      simp only [Function.comp, hid, if_true, List.count_cons, hEq, beq_self_eq_true,
        Prod.mk.injEq, true_and]
      ring
    · simp only [Bool.not_eq_true] at hid
      have hne : ¬ p.2.config_id = cid := by simpa using hid
      have hid2 : (cid == p.2.config_id) = false := by
        simp only [beq_eq_false_iff_ne, ne_eq]
        exact fun hh => hne hh.symm
      simp only [Function.comp, hid, Bool.false_eq_true, if_false, List.count_cons, hid2,
        Prod.mk.injEq, true_and]
      simp

/-- What `_dissolve_event` does to a non-empty network: it completes, keeps
the oscillator id sequence, multiplies each oscillator coupling strength by
(1/2)^k where k is the number of oscillators holding the same config object,
and resets every phase history to the one-element fresh-phase list. -/
lemma dissolveEvent_spec (env : MathEnv) (net : KuramotoNetwork)
    (tigNodes : List (String × TIGNode)) (participating : List String)
    (noise : ℕ → String → ℚ) (tick : ℕ → ℚ) (fresh : String → ℚ)
    (h : net.oscillators ≠ []) :
    ((dissolveEvent env net tigNodes participating noise tick fresh).toOption.map
        (fun n => n.oscillators.map (fun p => p.1)))
      = some (net.oscillators.map (fun p => p.1))
    ∧ ((dissolveEvent env net tigNodes participating noise tick fresh).toOption.map
        (fun n => n.oscillators.map (fun p => p.2.config.coupling_strength)))
      = some (net.oscillators.map (fun p => p.2.config.coupling_strength
          * (1 / 2) ^ ((net.oscillators.map (fun q => q.2.config_id)).count p.2.config_id)))
    ∧ ((dissolveEvent env net tigNodes participating noise tick fresh).toOption.map
        (fun n => n.oscillators.map (fun p => p.2.phase_history)))
      = some (net.oscillators.map (fun p => [fresh p.1])) := by
  set net0 : KuramotoNetwork :=
    (net.oscillators.map (fun p => p.2.config_id)).foldl halveConfigObject net with hnet0
  have hpairs : net0.oscillators.map (fun p => (p.1, p.2.config.coupling_strength))
      = net.oscillators.map (fun p => (p.1, p.2.config.coupling_strength
          * (1 / 2) ^ ((net.oscillators.map (fun q => q.2.config_id)).count p.2.config_id))) := by
    rw [hnet0]
    exact foldl_halveConfigObject_pairs _ net
  have h0 : net0.oscillators ≠ [] := by
    intro hnil
    have hlen := congrArg List.length hpairs
    rw [hnil] at hlen
    simp only [List.map_nil, List.length_nil, List.length_map] at hlen
    exact h (List.eq_nil_of_length_eq_zero hlen.symm)
  obtain ⟨net1, heq1, hmap1⟩ := foldUpdates_ok env (buildTopology tigNodes participating)
    (1 / 200) noise tick (List.range 10) net0 h0
  have heqD : dissolveEvent env net tigNodes participating noise tick fresh
      = .ok (resetAll net1 fresh) := by
    simp only [dissolveEvent]
    rw [← hnet0, heq1]
    rfl
  have hkeys1 : net1.oscillators.map (fun p => p.1) = net0.oscillators.map (fun p => p.1) := by
    have hh := congrArg (List.map (fun q : String × OscillatorConfig => q.1)) hmap1
    simpa only [List.map_map] using hh
  have hkeys0 : net0.oscillators.map (fun p => p.1) = net.oscillators.map (fun p => p.1) := by
    have hh := congrArg (List.map (fun q : String × ℚ => q.1)) hpairs
    simpa only [List.map_map] using hh
  have hcpl1 : net1.oscillators.map (fun p => p.2.config.coupling_strength)
      = net0.oscillators.map (fun p => p.2.config.coupling_strength) := by
    have hh := congrArg
      (List.map (fun q : String × OscillatorConfig => q.2.coupling_strength)) hmap1
    simpa only [List.map_map] using hh
  have hcpl0 : net0.oscillators.map (fun p => p.2.config.coupling_strength)
      = net.oscillators.map (fun p => p.2.config.coupling_strength
          * (1 / 2) ^ ((net.oscillators.map (fun q => q.2.config_id)).count p.2.config_id)) := by
    have hh := congrArg (List.map (fun q : String × ℚ => q.2)) hpairs
    simpa only [List.map_map] using hh
  refine ⟨?_, ?_, ?_⟩ <;> rw [heqD] <;> dsimp only [Except.toOption, Option.map] <;> congr 1
  · calc (resetAll net1 fresh).oscillators.map (fun p => p.1)
        = net1.oscillators.map (fun p => p.1) := by
          simp only [resetAll, List.map_map]
          rfl
      _ = net.oscillators.map (fun p => p.1) := hkeys1.trans hkeys0
  · calc (resetAll net1 fresh).oscillators.map (fun p => p.2.config.coupling_strength)
        = net1.oscillators.map (fun p => p.2.config.coupling_strength) := by
          simp only [resetAll, List.map_map]
          rfl
      _ = net.oscillators.map (fun p => p.2.config.coupling_strength
          * (1 / 2) ^ ((net.oscillators.map (fun q => q.2.config_id)).count p.2.config_id)) :=
          hcpl1.trans hcpl0
  · calc (resetAll net1 fresh).oscillators.map (fun p => p.2.phase_history)
        = (net1.oscillators.map (fun p => p.1)).map (fun k => [fresh k]) := by
          simp only [resetAll, List.map_map]
          rfl
      _ = (net.oscillators.map (fun p => p.1)).map (fun k => [fresh k]) := by
          rw [hkeys1.trans hkeys0]
      _ = net.oscillators.map (fun p => [fresh p.1]) := by
          simp only [List.map_map]
          rfl

/-- C6 counterexample: two oscillators registered without an explicit config
share the one default config object (coupling strength 2); the dissolve loop
halves that object once per oscillator, so each oscillator ends at
2·(1/2)·(1/2) = 1/2 — not the exactly-halved 1 the claim asserts. -/
theorem C6_shared_halving_counterexample :
    ((dissolveEvent envTriv sharedNet2 [] ["a", "b"] (fun _ _ => 0) (fun _ => 0)
        (fun _ => 3)).toOption.map
          (fun n => n.oscillators.map (fun p => p.2.config.coupling_strength)))
      = some [1 / 2, 1 / 2]
    ∧ sharedNet2.oscillators.map (fun p => p.2.config.coupling_strength * (1 / 2)) = [1, 1]
    ∧ (1 : ℚ) / 2 ≠ 1 := by
  obtain ⟨-, hcpl, -⟩ := dissolveEvent_spec envTriv sharedNet2 [] ["a", "b"]
    (fun _ _ => 0) (fun _ => 0) (fun _ => 3) (by decide)
  have hlist : sharedNet2.oscillators
      = [("a", mkOscillator "a" {} 0 (1 / 2)), ("b", mkOscillator "b" {} 0 (1 / 2))] := rfl
  refine ⟨?_, ?_, by norm_num⟩
  · rw [hcpl, hlist]
    norm_num [mkOscillator, List.count_cons]
  · rw [hlist]
    norm_num [mkOscillator]

/-- C6 (amended): `_dissolve_event` executes `coupling_strength *= 0.5` once
per oscillator on the (possibly shared) config object of that oscillator, so an
oscillator whose config object is held by k oscillators ends with its
coupling strength multiplied by (1/2)^k — an oscillator with a private
config is exactly halved, while all default-config oscillators share one
object and end at ×(1/2)^N; the network is then driven for the 50 ms tail
(tail_steps = 50ms/dt steps) at the reduced coupling and every oscillator is
reset to an independent fresh random phase: afterwards the oscillator id
sequence (hence the count) is unchanged and every phase history is exactly
the one-element list of the fresh phase. -/
theorem C6_dissolve_event_shared_configs (env : MathEnv) (net : KuramotoNetwork)
    (tigNodes : List (String × TIGNode)) (participating : List String)
    (noise : ℕ → String → ℚ) (tick : ℕ → ℚ) (fresh : String → ℚ)
    (h : net.oscillators ≠ []) :
    ((dissolveEvent env net tigNodes participating noise tick fresh).toOption.map
        (fun n => n.oscillators.map (fun p => p.1)))
      = some (net.oscillators.map (fun p => p.1))
    ∧ ((dissolveEvent env net tigNodes participating noise tick fresh).toOption.map
        (fun n => n.oscillators.map (fun p => p.2.config.coupling_strength)))
      = some (net.oscillators.map (fun p => p.2.config.coupling_strength
          * (1 / 2) ^ ((net.oscillators.map (fun q => q.2.config_id)).count p.2.config_id)))
    ∧ ((dissolveEvent env net tigNodes participating noise tick fresh).toOption.map
        (fun n => n.oscillators.map (fun p => p.2.phase_history)))
      = some (net.oscillators.map (fun p => [fresh p.1])) :=
  dissolveEvent_spec env net tigNodes participating noise tick fresh h

lemma rk4_run_quads (n : ℕ) :
    ∃ net', runNetworkSteps envTriv [] (1 / 200) rk4Net1 n = .ok net'
      ∧ net'.oscillators.map
          (fun p => (p.1, p.2.config, p.2.phase_history.length, p.2.frequency_history.length))
        = [("n1", rk4Config, n + 1, n + 1)] := by
  induction n with
  | zero => exact ⟨rk4Net1, rfl, by decide⟩
  | succ n ih =>
    obtain ⟨net', heq, hquad⟩ := ih
    obtain ⟨a, hA, ha⟩ := map_eq_singleton _ _ _ hquad
    simp only [Prod.mk.injEq] at ha
    obtain ⟨ha1, haC, haP, haF⟩ := ha
    have hm : (a.2.config.integration_method == "rk4") = true := by
      rw [haC]
      rfl
    have hstep : ∃ net2, updateNetwork envTriv net' [] none (1 / 200) (fun _ => 0) 0 = .ok net2
        ∧ net2.oscillators.map
            (fun p => (p.1, p.2.config, p.2.phase_history.length, p.2.frequency_history.length))
          = [("n1", rk4Config, n + 2, n + 2)] := by
      simp only [updateNetwork, hA]
      rw [if_pos hm]
      obtain ⟨net2, e2, q2, -, -, -⟩ := updateNetwork_core envTriv 0 net'
        (rk4StepOscillators envTriv net' ((a :: []).map (fun p => (p.1, p.2.phase)))
          [] none (1 / 200) (fun _ => 0))
        (fun p => (p.1, p.2.config, p.2.phase_history.length, p.2.frequency_history.length))
        [("n1", rk4Config, n + 2, n + 2)]
        (rk4StepOscillators_ne envTriv net' _ [] none (1 / 200) (fun _ => 0) a [] hA)
        (by
          rw [rk4StepOscillators_quads, hA]
          simp [ha1, haC, haP, haF])
      exact ⟨net2, e2, q2⟩
    obtain ⟨net2, e2, q2⟩ := hstep
    refine ⟨net2, ?_, q2⟩
    show runNetworkSteps envTriv [] (1 / 200) rk4Net1 (n + 1) = .ok net2
    rw [runNetworkSteps, heq]
    exact e2

/-- C5: the rk4 branch of `update_network` appends to both history buffers
without the 1000-sample trim, so after 1000 network-level rk4 steps a buffer
that started with one sample holds 1001 — exceeding the documented bound. -/
theorem C5_rk4_history_exceeds_bound :
    ∃ net', runNetworkSteps envTriv [] (1 / 200) rk4Net1 1000 = .ok net'
      ∧ net'.oscillators.map (fun p => p.2.phase_history.length) = [1001]
      ∧ net'.oscillators.map (fun p => p.2.frequency_history.length) = [1001] := by
  obtain ⟨net', heq, hquad⟩ := rk4_run_quads 1000
  obtain ⟨a, hA, ha⟩ := map_eq_singleton _ _ _ hquad
  simp only [Prod.mk.injEq] at ha
  refine ⟨net', heq, ?_, ?_⟩ <;> rw [hA] <;> simp [ha.2.2.1, ha.2.2.2]

lemma syncStepBody_cross_first (env : MathEnv) (topo : List (String × List String))
    (target dt : ℚ) (noise : ℕ → String → ℚ) (tick elapsedA : ℕ → ℚ)
    (net : KuramotoNetwork) (ys : List ℕ) (s : ℕ) (net1 : KuramotoNetwork)
    (c : PhaseCoherence)
    (hupd : updateNetwork env net topo none dt (noise s) (tick s) = .ok net1)
    (hc : net1.coherence_cache = some c)
    (hT : target ≤ c.order_parameter)
    (h0 : net1.dynamics.time_to_sync.isNone = true) :
    syncStepBody env topo target dt noise tick elapsedA (net, ys) s
      = .ok ({ net1 with dynamics :=
            { net1.dynamics with
                time_to_sync := some (elapsedA s)
                sustained_duration := net1.dynamics.sustained_duration + dt } },
          if s % 10 == 0 then ys ++ [s] else ys) := by
  unfold syncStepBody
  rw [hupd]
  show Except.ok _ = _
  rw [hc]
  dsimp only
  rw [if_pos hT, if_pos h0]

lemma syncStepBody_cross_later (env : MathEnv) (topo : List (String × List String))
    (target dt : ℚ) (noise : ℕ → String → ℚ) (tick elapsedA : ℕ → ℚ)
    (net : KuramotoNetwork) (ys : List ℕ) (s : ℕ) (net1 : KuramotoNetwork)
    (c : PhaseCoherence)
    (hupd : updateNetwork env net topo none dt (noise s) (tick s) = .ok net1)
    (hc : net1.coherence_cache = some c)
    (hT : target ≤ c.order_parameter)
    (h0 : net1.dynamics.time_to_sync.isNone = false) :
    syncStepBody env topo target dt noise tick elapsedA (net, ys) s
      = .ok ({ net1 with dynamics :=
            { net1.dynamics with
                sustained_duration := net1.dynamics.sustained_duration + dt } },
          if s % 10 == 0 then ys ++ [s] else ys) := by
  unfold syncStepBody
  rw [hupd]
  show Except.ok _ = _
  rw [hc]
  dsimp only
  rw [if_pos hT, if_neg (by rw [h0]; exact Bool.false_ne_true)]

lemma syncStepBody_below (env : MathEnv) (topo : List (String × List String))
    (target dt : ℚ) (noise : ℕ → String → ℚ) (tick elapsedA : ℕ → ℚ)
    (net : KuramotoNetwork) (ys : List ℕ) (s : ℕ) (net1 : KuramotoNetwork)
    (c : PhaseCoherence)
    (hupd : updateNetwork env net topo none dt (noise s) (tick s) = .ok net1)
    (hc : net1.coherence_cache = some c)
    (hT : ¬ target ≤ c.order_parameter) :
    syncStepBody env topo target dt noise tick elapsedA (net, ys) s
      = .ok (net1, if s % 10 == 0 then ys ++ [s] else ys) := by
  unfold syncStepBody
  rw [hupd]
  show Except.ok _ = _
  rw [hc]
  dsimp only
  rw [if_neg hT]

/-- The invariant of the `synchronize` loop over an arbitrary list of step
indices: the run succeeds, ids/configs are preserved, one order-parameter
sample is logged per step, `time_to_sync` is set exactly at the first step
whose order parameter reaches the target (and only if it was previously
unset), `sustained_duration` grows by dt for exactly the steps at or above
the target, and control is yielded at the steps whose index is a multiple of
ten. -/
lemma syncFold_ok (env : MathEnv) (topo : List (String × List String)) (target dt : ℚ)
    (noise : ℕ → String → ℚ) (tick elapsedA : ℕ → ℚ) :
    ∀ (l : List ℕ) (net : KuramotoNetwork) (ys : List ℕ), net.oscillators ≠ [] →
    ∃ net' ys2 rs,
      l.foldlM (syncStepBody env topo target dt noise tick elapsedA) (net, ys)
        = .ok (net', ys2)
      ∧ net'.oscillators.map (fun p => (p.1, p.2.config))
          = net.oscillators.map (fun p => (p.1, p.2.config))
      ∧ net'.dynamics.coherence_samples.map Prod.fst
          = net.dynamics.coherence_samples.map Prod.fst ++ rs
      ∧ rs.length = l.length
      ∧ net'.dynamics.time_to_sync
          = (match net.dynamics.time_to_sync with
             | some t0 => some t0
             | none => (firstCrossIdx target rs).bind (fun i => (l[i]?).map elapsedA))
      ∧ net'.dynamics.sustained_duration
          = net.dynamics.sustained_duration
              + dt * ((rs.filter (fun x => decide (target ≤ x))).length : ℚ)
      ∧ ys2 = ys ++ l.filter (fun s => s % 10 == 0) := by
  intro l
  induction l with
  | nil =>
    intro net ys h
    refine ⟨net, ys, [], rfl, rfl, by simp, rfl, ?_, by simp, by simp⟩
    cases net.dynamics.time_to_sync <;> simp [firstCrossIdx]
  | cons s ss ih =>
    intro net ys h
    obtain ⟨first, rest, hosc⟩ := exists_cons_of_ne_nil h
    obtain ⟨net1, hupd, hmap, htts, hsus, r, hr, hsamp⟩ :=
      updateNetwork_ok env net topo none dt (noise s) (tick s) first rest hosc
    have h1 : net1.oscillators ≠ [] := ne_nil_of_map_config_eq hmap h
    cases hc : net1.coherence_cache with
    | none =>
      rw [hc] at hr
      simp at hr
    | some c =>
      rw [hc] at hr
      have hrc : c.order_parameter = r := by simpa using hr
      rw [List.foldlM_cons]
      by_cases hT : target ≤ c.order_parameter
      · have hTr : target ≤ r := hrc ▸ hT
        cases tts0 : net.dynamics.time_to_sync with
        | none =>
          have h0 : net1.dynamics.time_to_sync.isNone = true := by
            rw [htts, tts0]
            rfl
          rw [syncStepBody_cross_first env topo target dt noise tick elapsedA
            net ys s net1 c hupd hc hT h0]
          obtain ⟨net3, ys3, rs', e3, map3, samp3, len3, tts3, sus3, ysEq⟩ :=
            ih { net1 with dynamics :=
                { net1.dynamics with
                    time_to_sync := some (elapsedA s)
                    sustained_duration := net1.dynamics.sustained_duration + dt } }
              (if s % 10 == 0 then ys ++ [s] else ys) h1
          refine ⟨net3, ys3, r :: rs', e3, map3.trans hmap, ?_, ?_, ?_, ?_, ?_⟩
          · calc net3.dynamics.coherence_samples.map Prod.fst
                = net1.dynamics.coherence_samples.map Prod.fst ++ rs' := samp3
              _ = net.dynamics.coherence_samples.map Prod.fst ++ (r :: rs') := by
                  rw [hsamp]
                  simp
          · simpa using len3
          · have tts3' : net3.dynamics.time_to_sync = some (elapsedA s) := by
              rw [tts3]
            rw [tts3']
            simp [firstCrossIdx, if_pos hTr]
          · have sus3' : net3.dynamics.sustained_duration
                = net1.dynamics.sustained_duration + dt
                  + dt * ((rs'.filter (fun x => decide (target ≤ x))).length : ℚ) := sus3
            rw [sus3', hsus, List.filter_cons]
            simp only [hTr, decide_eq_true_eq, if_true, List.length_cons]
            push_cast
            ring
          · rw [ysEq, List.filter_cons]
            cases hs : (s % 10 == 0) <;> simp [hs]
        | some t0 =>
          have h0 : net1.dynamics.time_to_sync.isNone = false := by
            rw [htts, tts0]
            rfl
          rw [syncStepBody_cross_later env topo target dt noise tick elapsedA
            net ys s net1 c hupd hc hT h0]
          obtain ⟨net3, ys3, rs', e3, map3, samp3, len3, tts3, sus3, ysEq⟩ :=
            ih { net1 with dynamics :=
                { net1.dynamics with
                    sustained_duration := net1.dynamics.sustained_duration + dt } }
              (if s % 10 == 0 then ys ++ [s] else ys) h1
          refine ⟨net3, ys3, r :: rs', e3, map3.trans hmap, ?_, ?_, ?_, ?_, ?_⟩
          · calc net3.dynamics.coherence_samples.map Prod.fst
                = net1.dynamics.coherence_samples.map Prod.fst ++ rs' := samp3
              _ = net.dynamics.coherence_samples.map Prod.fst ++ (r :: rs') := by
                  rw [hsamp]
                  simp
          · simpa using len3
          · have tts3' : net3.dynamics.time_to_sync
                = (match net1.dynamics.time_to_sync with
                   | some u => some u
                   | none => (firstCrossIdx target rs').bind
                       (fun i => (ss[i]?).map elapsedA)) := tts3
            rw [htts, tts0] at tts3'
            simpa using tts3'
          · have sus3' : net3.dynamics.sustained_duration
                = net1.dynamics.sustained_duration + dt
                  + dt * ((rs'.filter (fun x => decide (target ≤ x))).length : ℚ) := sus3
            rw [sus3', hsus, List.filter_cons]
            simp only [hTr, decide_eq_true_eq, if_true, List.length_cons]
            push_cast
            ring
          · rw [ysEq, List.filter_cons]
            cases hs : (s % 10 == 0) <;> simp [hs]
      · have hTr : ¬ target ≤ r := fun hh => hT (hrc ▸ hh)
        rw [syncStepBody_below env topo target dt noise tick elapsedA
          net ys s net1 c hupd hc hT]
        obtain ⟨net3, ys3, rs', e3, map3, samp3, len3, tts3, sus3, ysEq⟩ :=
          ih net1 (if s % 10 == 0 then ys ++ [s] else ys) h1
        refine ⟨net3, ys3, r :: rs', e3, map3.trans hmap, ?_, ?_, ?_, ?_, ?_⟩
        · calc net3.dynamics.coherence_samples.map Prod.fst
              = net1.dynamics.coherence_samples.map Prod.fst ++ rs' := samp3
            _ = net.dynamics.coherence_samples.map Prod.fst ++ (r :: rs') := by
                rw [hsamp]
                simp
        · simpa using len3
        · rw [htts] at tts3
          cases tts0 : net.dynamics.time_to_sync with
          | some t0 =>
            rw [tts0] at tts3
            simpa using tts3
          | none =>
            rw [tts0] at tts3
            cases hfc : firstCrossIdx target rs' with
            | none =>
              rw [hfc] at tts3
              simp only [firstCrossIdx, if_neg hTr, hfc]
              simpa using tts3
            | some i =>
              rw [hfc] at tts3
              simp only [firstCrossIdx, if_neg hTr, hfc]
              simpa using tts3
        · rw [sus3, hsus]
          simp [List.filter_cons, hTr]
        · rw [ysEq, List.filter_cons]
          cases hs : (s % 10 == 0) <;> simp [hs]

lemma firstCrossIdx_lt_length (target : ℚ) :
    ∀ (rs : List ℚ) (i : ℕ), firstCrossIdx target rs = some i → i < rs.length := by
  intro rs
  induction rs with
  | nil =>
    intro i hi
    simp [firstCrossIdx] at hi
  | cons a t ihh =>
    intro i hi
    by_cases ha : target ≤ a
    · simp only [firstCrossIdx, if_pos ha, Option.some.injEq] at hi
      simp only [List.length_cons]
      omega
    · simp only [firstCrossIdx, if_neg ha, Option.map_eq_some'] at hi
      obtain ⟨j, hj, hji⟩ := hi
      have := ihh j hj
      simp only [List.length_cons]
      omega

/-- C8: during a `synchronize` run that starts with `time_to_sync` unset,
`time_to_sync` is assigned (at most once) exactly at the first step whose
order parameter reaches `target_coherence` — staying `none` when no step
reaches it — and `sustained_duration` grows by dt on exactly the steps at or
above the target; steps below the target change neither field. -/
theorem C8_synchronize_bookkeeping (env : MathEnv) (net : KuramotoNetwork)
    (topo : List (String × List String)) (duration_ms target dt : ℚ)
    (noise : ℕ → String → ℚ) (tick elapsedA : ℕ → ℚ)
    (h : net.oscillators ≠ []) (h0 : net.dynamics.time_to_sync = none) :
    ∃ net' ys rs,
      synchronize env net topo duration_ms target dt noise tick elapsedA = .ok (net', ys)
      ∧ net'.dynamics.coherence_samples.map Prod.fst
          = net.dynamics.coherence_samples.map Prod.fst ++ rs
      ∧ rs.length = syncSteps duration_ms dt
      ∧ net'.dynamics.time_to_sync = (firstCrossIdx target rs).map elapsedA
      ∧ net'.dynamics.sustained_duration
          = net.dynamics.sustained_duration
              + dt * ((rs.filter (fun x => decide (target ≤ x))).length : ℚ) := by
  obtain ⟨net', ys2, rs, e, -, samp, len, tts, sus, -⟩ :=
    syncFold_ok env topo target dt noise tick elapsedA
      (List.range (syncSteps duration_ms dt)) net [] h
  rw [h0] at tts
  refine ⟨net', ys2, rs, e, samp, by simpa using len, ?_, sus⟩
  cases hfc : firstCrossIdx target rs with
  | none =>
    rw [hfc] at tts
    simpa using tts
  | some i =>
    have hi : i < syncSteps duration_ms dt := by
      have := firstCrossIdx_lt_length target rs i hfc
      rwa [len, List.length_range] at this
    rw [hfc] at tts
    have tts' : net'.dynamics.time_to_sync
        = Option.map elapsedA ((List.range (syncSteps duration_ms dt))[i]?) := tts
    rw [List.getElem?_range hi] at tts'
    simpa using tts'

/-- C4 (amended): `synchronize` calls `update_network` exactly
`int(duration_s / dt)` times — truncation, the floor for the nonnegative
durations and positive steps in use, not the ceiling — observable as exactly
that many coherence samples appended; it yields control at every step whose
index is a multiple of 10. -/
theorem C4_synchronize_step_count (env : MathEnv) (net : KuramotoNetwork)
    (topo : List (String × List String)) (duration_ms target dt : ℚ)
    (noise : ℕ → String → ℚ) (tick elapsedA : ℕ → ℚ)
    (h : net.oscillators ≠ []) (hdur : 0 ≤ duration_ms) (hdt : 0 < dt) :
    ∃ net' ys,
      synchronize env net topo duration_ms target dt noise tick elapsedA = .ok (net', ys)
      ∧ net'.dynamics.coherence_samples.length
          = net.dynamics.coherence_samples.length + syncSteps duration_ms dt
      ∧ syncSteps duration_ms dt = (⌊(duration_ms / 1000) / dt⌋).toNat
      ∧ ys = (List.range (syncSteps duration_ms dt)).filter (fun s => s % 10 == 0) := by
  obtain ⟨net', ys2, rs, e, -, samp, len, -, -, ysEq⟩ :=
    syncFold_ok env topo target dt noise tick elapsedA
      (List.range (syncSteps duration_ms dt)) net [] h
  refine ⟨net', ys2, e, ?_, ?_, by simpa using ysEq⟩
  · have hlen := congrArg List.length samp
    simp only [List.length_map, List.length_append] at hlen
    rw [hlen, len, List.length_range]
  · have hx : 0 ≤ (duration_ms / 1000) / dt :=
      div_nonneg (div_nonneg hdur (by norm_num)) hdt.le
    unfold syncSteps pyInt
    rw [if_pos hx]

/-- C4 counterexample: with duration_ms = 1 and dt = 0.005 s the exact step
quotient is 0.2, so the claimed ceiling would be 1 update; the
`int(...)` truncation in the code runs 0 updates — `synchronize` returns the network
unchanged, with no coherence sample appended and no yield. -/
theorem C4_ceil_counterexample :
    synchronize envTriv eulerNet1 [] 1 (7 / 10) (1 / 200) (fun _ _ => 0) (fun _ => 0)
        (fun _ => 0)
      = .ok (eulerNet1, [])
    ∧ eulerNet1.dynamics.coherence_samples.length = 0
    ∧ syncSteps 1 (1 / 200) = 0
    ∧ ⌈((1 : ℚ) / 1000) / (1 / 200)⌉ = 1 := by
  have hq : ((1 : ℚ) / 1000) / (1 / 200) = 1 / 5 := by norm_num
  have hsteps : syncSteps 1 (1 / 200) = 0 := by
    unfold syncSteps pyInt
    rw [hq, if_pos (by norm_num)]
    have : (⌊(1 : ℚ) / 5⌋ : ℤ) = 0 := by
      rw [Int.floor_eq_iff] <;> norm_num
    rw [this]
    rfl
  refine ⟨?_, rfl, hsteps, ?_⟩
  · rw [synchronize, hsteps]
    rfl
  · rw [hq, Int.ceil_eq_iff] <;> norm_num

/-- C4 witness: a one-oscillator run over 10 ms at dt = 5 ms. -/
theorem C4_synchronize_step_count_witness :
    ∃ net' ys,
      synchronize envTriv eulerNet1 [] 10 (7 / 10) (1 / 200) (fun _ _ => 0) (fun _ => 0)
          (fun _ => 0)
        = .ok (net', ys)
      ∧ net'.dynamics.coherence_samples.length
          = eulerNet1.dynamics.coherence_samples.length + syncSteps 10 (1 / 200)
      ∧ syncSteps 10 (1 / 200) = (⌊((10 : ℚ) / 1000) / (1 / 200)⌋).toNat
      ∧ ys = (List.range (syncSteps 10 (1 / 200))).filter (fun s => s % 10 == 0) :=
  C4_synchronize_step_count envTriv eulerNet1 [] 10 (7 / 10) (1 / 200) (fun _ _ => 0)
    (fun _ => 0) (fun _ => 0) (by decide) (by norm_num) (by norm_num)

/-- C6 witness: dissolving the two-oscillator shared-config network with
fresh phase 3. -/
theorem C6_dissolve_event_shared_configs_witness :
    ((dissolveEvent envTriv sharedNet2 [] ["a", "b"] (fun _ _ => 0) (fun _ => 0)
        (fun _ => 3)).toOption.map (fun n => n.oscillators.map (fun p => p.1)))
      = some (sharedNet2.oscillators.map (fun p => p.1))
    ∧ ((dissolveEvent envTriv sharedNet2 [] ["a", "b"] (fun _ _ => 0) (fun _ => 0)
        (fun _ => 3)).toOption.map
          (fun n => n.oscillators.map (fun p => p.2.config.coupling_strength)))
      = some (sharedNet2.oscillators.map (fun p => p.2.config.coupling_strength
          * (1 / 2) ^ ((sharedNet2.oscillators.map (fun q => q.2.config_id)).count
              p.2.config_id)))
    ∧ ((dissolveEvent envTriv sharedNet2 [] ["a", "b"] (fun _ _ => 0) (fun _ => 0)
        (fun _ => 3)).toOption.map (fun n => n.oscillators.map (fun p => p.2.phase_history)))
      = some (sharedNet2.oscillators.map (fun p => [(3 : ℚ)])) :=
  C6_dissolve_event_shared_configs envTriv sharedNet2 [] ["a", "b"] (fun _ _ => 0)
    (fun _ => 0) (fun _ => 3) (by decide)

/-- C7 witness: a one-oscillator network updated against a topology that still
names a removed node. -/
theorem C7_update_network_no_crash_witness :
    (updateNetwork envTriv eulerNet1 [("n1", ["removed"])] none (1 / 200) (fun _ => 0)
        0).toOption.isSome = true
    ∧ 0 < eulerNet1.oscillators.length :=
  C7_update_network_no_crash envTriv eulerNet1 [("n1", ["removed"])] none (1 / 200)
    (fun _ => 0) 0 (by decide)

/-- C8 witness: a one-oscillator run over 10 ms at dt = 5 ms starting with
`time_to_sync` unset. -/
theorem C8_synchronize_bookkeeping_witness :
    ∃ net' ys rs,
      synchronize envTriv eulerNet1 [] 10 (7 / 10) (1 / 200) (fun _ _ => 0) (fun _ => 0)
          (fun _ => 0)
        = .ok (net', ys)
      ∧ net'.dynamics.coherence_samples.map Prod.fst
          = eulerNet1.dynamics.coherence_samples.map Prod.fst ++ rs
      ∧ rs.length = syncSteps 10 (1 / 200)
      ∧ net'.dynamics.time_to_sync
          = (firstCrossIdx (7 / 10) rs).map (fun _ => (0 : ℚ))
      ∧ net'.dynamics.sustained_duration
          = eulerNet1.dynamics.sustained_duration
              + (1 / 200) * ((rs.filter (fun x => decide ((7 : ℚ) / 10 ≤ x))).length : ℚ) :=
  C8_synchronize_bookkeeping envTriv eulerNet1 [] 10 (7 / 10) (1 / 200) (fun _ _ => 0)
    (fun _ => 0) (fun _ => 0) (by decide) rfl

/-- C3: `_check_triggers` evaluates the four gates in the fixed order
salience, resource, temporal, arousal, short-circuiting into `(false, reason)`
at the first failing gate (so the reported reason names exactly the first
failure), returns false whenever any single gate fails regardless of the
others, and returns `(true, "")` exactly when all four gates pass. -/
theorem C3_check_triggers_gate_order (tr : TriggerConditions)
    (computeTotal : SalienceScore → ℚ) (salience : SalienceScore)
    (tigNodes : List (String × TIGNode)) (avg_latency_us last_esgt_time : ℚ)
    (eventTimes : List ℚ) (now : ℚ) :
    (checkTriggers tr computeTotal salience tigNodes avg_latency_us last_esgt_time eventTimes now
        = (true, "")
      ↔ checkSalience tr (computeTotal salience) = true
        ∧ checkResources tr (avg_latency_us / 1000) (availableNodes tigNodes) (60 / 100) = true
        ∧ checkTemporalGating tr (timeSinceLast last_esgt_time now) (recentCount eventTimes now)
            = true
        ∧ checkArousal tr (70 / 100) = true)
    ∧ ((checkTriggers tr computeTotal salience tigNodes avg_latency_us last_esgt_time eventTimes
          now).1 = false
      ↔ checkSalience tr (computeTotal salience) = false
        ∨ checkResources tr (avg_latency_us / 1000) (availableNodes tigNodes) (60 / 100) = false
        ∨ checkTemporalGating tr (timeSinceLast last_esgt_time now) (recentCount eventTimes now)
            = false
        ∨ checkArousal tr (70 / 100) = false)
    ∧ (checkTriggers tr computeTotal salience tigNodes avg_latency_us last_esgt_time eventTimes now
        = (false, "Salience too low")
      ↔ checkSalience tr (computeTotal salience) = false)
    ∧ (checkTriggers tr computeTotal salience tigNodes avg_latency_us last_esgt_time eventTimes now
        = (false, "Insufficient resources")
      ↔ checkSalience tr (computeTotal salience) = true
        ∧ checkResources tr (avg_latency_us / 1000) (availableNodes tigNodes) (60 / 100) = false)
    ∧ (checkTriggers tr computeTotal salience tigNodes avg_latency_us last_esgt_time eventTimes now
        = (false, "Refractory period violation")
      ↔ checkSalience tr (computeTotal salience) = true
        ∧ checkResources tr (avg_latency_us / 1000) (availableNodes tigNodes) (60 / 100) = true
        ∧ checkTemporalGating tr (timeSinceLast last_esgt_time now) (recentCount eventTimes now)
            = false)
    ∧ (checkTriggers tr computeTotal salience tigNodes avg_latency_us last_esgt_time eventTimes now
        = (false, "Arousal too low")
      ↔ checkSalience tr (computeTotal salience) = true
        ∧ checkResources tr (avg_latency_us / 1000) (availableNodes tigNodes) (60 / 100) = true
        ∧ checkTemporalGating tr (timeSinceLast last_esgt_time now) (recentCount eventTimes now)
            = true
        ∧ checkArousal tr (70 / 100) = false) := by
  cases h1 : checkSalience tr (computeTotal salience) <;>
    cases h2 : checkResources tr (avg_latency_us / 1000) (availableNodes tigNodes) (60 / 100) <;>
      cases h3 : checkTemporalGating tr (timeSinceLast last_esgt_time now)
          (recentCount eventTimes now) <;>
        cases h4 : checkArousal tr (70 / 100) <;>
          simp [checkTriggers, h1, h2, h3, h4]

end Noesis
